import Mathlib

/-!
Verification of the Medicine_Collector crawler against its specification.

Each section shallowly embeds one module of the Python source:

* `Crawler.Utils`      — `src/crawler/utils.py` (missing-docId computation)
* `MC.FileUtils`       — `src/Medicine_Collector/utils/file_utils.py`
                         (ID derivation, dedup, record storage)
* `MC.KeywordManager`  — `src/Medicine_Collector/utils/keyword_manager.py`
                         (Todo/Done ledgers)
* `MC.NaverApi`        — `src/Medicine_Collector/api/naver_api.py`
                         (daily quota gate, retry/backoff loop)
* `MC.Checkpoint`      — `src/Medicine_Collector/utils/checkpoint.py`
* `Crawler.Fetcher`    — `src/crawler/fetcher.py` and the per-docId step of
                         `src/crawler/main.py`

Python strings are Lean `String`s, Python ints are `Int`/`Nat`, file contents
are modelled as the list of their non-empty stripped lines, and external
effects (HTTP responses, `hash`, the current date) are passed in explicitly.
-/

namespace Crawler.Utils

/-- Little-endian decimal digits of `n`, with explicit fuel (`fuel ≥ n`
suffices).  This is the digit sequence produced by Python's `str` on a
non-negative int, least significant digit first. -/
def decDigitsAux : Nat → Nat → List Nat
  | 0, _ => []
  | fuel + 1, n => if n = 0 then [] else n % 10 :: decDigitsAux fuel (n / 10)

/-- Value of a little-endian decimal digit list (inverse of `decDigitsAux`). -/
def decVal : List Nat → Nat
  | [] => 0
  | d :: ds => d + 10 * decVal ds

/-- Python's `str` on a non-negative int: decimal, no leading zeros,
`"0"` for zero. -/
def natDecStr (n : Nat) : String :=
  if n = 0 then "0" else String.mk ((decDigitsAux n n).reverse.map Nat.digitChar)

/-- Python's `str` on an int (negative ints get a leading `'-'`). -/
def intDecStr : Int → String
  | .ofNat n => natDecStr n
  | .negSucc n => "-" ++ natDecStr (n + 1)

/-- Decodes a decimal digit character (inverse of `Nat.digitChar` below 10). -/
def charToDigit (c : Char) : Nat := c.toNat - 48

/-- Value of a big-endian decimal character list. -/
def bigEndVal (l : List Char) : Nat := decVal ((l.map charToDigit).reverse)

/-- Decodes the strings produced by `intDecStr` (a left inverse, used only to
prove `intDecStr` injective). -/
def strToIntDec (s : String) : Int :=
  if s.data.head? = some '-' then -(bigEndVal s.data.tail : Int)
  else (bigEndVal s.data : Int)

/-- Python's `range(s, e + 1)` as a list of `Int`s, in increasing order. -/
def intRange (s e : Int) : List Int :=
  (List.range (e + 1 - s).toNat).map (fun (k : Nat) => s + (k : Int))

/-- `calculate_missing_docids` (`src/crawler/utils.py:114-132`).  The Python
builds `{str(i) | i ∈ range(start, end+1)}`, subtracts the `processed` set,
and sorts the difference by `int` value.  Since `intRange` is already in
increasing order, `str` is injective and `int(str(i)) = i`, that pipeline
yields exactly the following list. -/
def calculate_missing_docids (start_docid end_docid : Int)
    (processed_docids : List String) : List String :=
  ((intRange start_docid end_docid).filter
    (fun i => intDecStr i ∉ processed_docids)).map intDecStr

end Crawler.Utils

namespace MC.FileUtils

/-- The fields of a medicine record that the ID-derivation, dedup and storage
code of `file_utils.py` reads.  A missing dict key and an empty-string value
are identified (Python treats both as falsy in every read below). -/
structure MedRecord where
  id : String := ""
  title : String := ""
  link : String := ""
  url : String := ""
  korean_name : String := ""
  company : String := ""
deriving DecidableEq

/-- Ambient effects of `file_utils.py`: Python's process-seeded `hash` and
`datetime.now().strftime('%Y%m%d')`. -/
structure Env where
  hashOf : String → Int
  today8 : String

/-- `re.search(r'docId=([^&]+)', url)` (`file_utils.py:110`): scan left to
right; at the first position where `docId=` is followed by at least one
non-`&` character, capture the maximal run of non-`&` characters. -/
def docidCapture : List Char → Option String
  | [] => none
  | c :: rest =>
    if c = 'd' ∧ rest.take 5 = ['o', 'c', 'I', 'd', '='] then
      let cap := (rest.drop 5).takeWhile (fun ch => ch ≠ '&')
      if cap.isEmpty then docidCapture rest else some (String.mk cap)
    else docidCapture rest

/-- Python's `f"{m:07d}"` for `m < 10 ^ 7` (the only argument it is applied
to, namely `abs(hash(...)) % 10000000`): the seven decimal digits of `m`,
zero-padded, most significant first. -/
def format07d (m : Nat) : String :=
  String.mk ((List.range 7).reverse.map (fun k => Nat.digitChar (m / 10 ^ k % 10)))

/-- `generate_medicine_id` (`file_utils.py:98-120`).  Only the first
non-empty of (`url`, `link`) is searched for a `docId=` parameter; otherwise
the ID is `"MC"` plus seven digits of a hash of name, company and date. -/
def generate_medicine_id (env : Env) (d : MedRecord) : String :=
  match docidCapture (if d.url ≠ "" then d.url else d.link).data with
  | some cap => "M" ++ cap
  | none =>
    "MC" ++ format07d ((env.hashOf
      ((if d.korean_name ≠ "" then d.korean_name else d.title) ++ "_" ++
        d.company ++ "_" ++ env.today8)).natAbs % 10000000)

/-- The missing-field default of `standardize_medicine_data`
(`file_utils.py:140-145`): an absent or empty field becomes `"정보 없음"`. -/
def fillMissing (s : String) : String := if s = "" then "정보 없음" else s

/-- `standardize_medicine_data` (`file_utils.py:122-158`), restricted to the
claim-relevant fields (all of them are in the `MEDICINE_FIELDS` template).
The fill loop (lines 140-145) runs before the required-`id` fallback (lines
147-149), so the fallback's guard never fires: a record without an `id` gets
the literal placeholder `"정보 없음"` as its `id`. -/
def standardize_medicine_data (env : Env) (d : MedRecord) : MedRecord :=
  let sd : MedRecord :=
    { id := fillMissing d.id, title := fillMissing d.title,
      link := fillMissing d.link, url := fillMissing d.url,
      korean_name := fillMissing d.korean_name, company := fillMissing d.company }
  if sd.id = "" then { sd with id := generate_medicine_id env d } else sd

/-- `medicine_data.get('id') or generate_medicine_id(medicine_data)`
(`file_utils.py:175` and `:221`). -/
def derive_medicine_id (env : Env) (d : MedRecord) : String :=
  if d.id ≠ "" then d.id else generate_medicine_id env d

/-- `is_duplicate_medicine` (`file_utils.py:160-191`).  The state is the line
list of `processed_medicine_ids.txt`; a fresh ID is appended durably. -/
def is_duplicate_medicine (env : Env) (d : MedRecord) (processedIds : List String) :
    Bool × List String :=
  let mid := derive_medicine_id env d
  if mid ∈ processedIds then (true, processedIds)
  else (false, processedIds ++ [mid])

/-- `sanitize_filename` (`file_utils.py:78-96`): replace filesystem-unsafe
characters with `'_'`, then truncate to 50 characters. -/
def sanitize_filename50 (s : String) : String :=
  String.mk ((s.data.map (fun c =>
    if c ∈ ['<', '>', ':', '"', '/', '\\', '|', '?', '*'] then '_' else c)).take 50)

/-- Durable state touched by `save_medicine_data`: the processed-IDs file and
the set of written JSON record files. -/
structure StoreState where
  processedIds : List String := []
  jsonFiles : List String := []
deriving DecidableEq

/-- `save_medicine_data` (`file_utils.py:193-254`): standardize, duplicate
check (which itself marks the ID), then write the JSON record file.  The
record argument equal to `{}` models Python's falsy empty dict. -/
def save_medicine_data (env : Env) (d : MedRecord) (st : StoreState) :
    (Bool × Option String) × StoreState :=
  if d = ({} : MedRecord) then ((false, none), st)
  else
    let sd := standardize_medicine_data env d
    let dup := is_duplicate_medicine env sd st.processedIds
    if dup.1 then ((false, none), { st with processedIds := dup.2 })
    else
      let mid := if sd.id ≠ "" then sd.id else generate_medicine_id env sd
      let name := if sd.korean_name ≠ "" then sd.korean_name
                  else if sd.title ≠ "" then sd.title else "이름없음"
      let fname := mid ++ "_" ++ sanitize_filename50 name ++ ".json"
      ((true, some fname), { processedIds := dup.2, jsonFiles := st.jsonFiles ++ [fname] })

/-- A concrete environment for evaluation: a constant `hash` and a fixed
date. -/
def constEnv : Env := { hashOf := fun _ => 1234567, today8 := "20250101" }

/-- A concrete record that has no explicit `id` (and no URL). -/
def noIdRecord : MedRecord := { korean_name := "타이레놀", company := "A" }

/-- A concrete record whose `url` is non-empty but carries no `docId=`
parameter, while its `link` does carry one. -/
def linkOnlyRecord : MedRecord :=
  { url := "https://x.com/page", link := "https://terms.naver.com/entry.naver?docId=123" }

end MC.FileUtils

namespace MC.KeywordManager

/-- `update_keyword_progress` (`keyword_manager.py:101-167`).  The ledgers
are the non-empty stripped-line lists of `keywords_todo.txt` and
`keywords_done.txt`; `List.erase` is Python's `list.remove` (first occurrence
only, guarded by a membership test as in the source).  Returns the success
flag and the two ledgers after the call. -/
def update_keyword_progress (kw : String) (todo done : List String) :
    Bool × List String × List String :=
  if kw = "" then (false, todo, done)
  else if kw ∈ done then
    (true, if kw ∈ todo then todo.erase kw else todo, done)
  else
    (true, if kw ∈ todo then todo.erase kw else todo, done ++ [kw])

/-- One durable ledger-file write performed by `update_keyword_progress`:
a full rewrite of `keywords_todo.txt` or an append to `keywords_done.txt`. -/
inductive LedgerWrite where
  | writeTodo (lines : List String)
  | appendDone (kw : String)
deriving DecidableEq

/-- The ordered sequence of ledger-file writes `update_keyword_progress`
performs (`keyword_manager.py:119-166`): in the fresh-completion branch the
Todo file is rewritten first (lines 155-156) and the Done file appended
afterwards (lines 161-162). -/
def update_keyword_writes (kw : String) (todo done : List String) :
    List LedgerWrite :=
  if kw = "" then []
  else if kw ∈ done then
    if kw ∈ todo then [.writeTodo (todo.erase kw)] else []
  else
    (if kw ∈ todo then [.writeTodo (todo.erase kw)] else []) ++ [.appendDone kw]

/-- Effect of one ledger write on the (todo, done) file pair. -/
def applyWrite : List String × List String → LedgerWrite → List String × List String
  | (_, done), .writeTodo lines => (lines, done)
  | (todo, done), .appendDone kw => (todo, done ++ [kw])

/-- Effect of a write sequence on the (todo, done) file pair. -/
def applyWrites (st : List String × List String) (ws : List LedgerWrite) :
    List String × List String :=
  ws.foldl applyWrite st

end MC.KeywordManager

namespace MC.NaverApi

/-- Content of `daily_request_count.json`. -/
structure QuotaRecord where
  date : String
  count : Nat
deriving DecidableEq

/-- The daily-quota gate at the top of `search_api` (`naver_api.py:36-67`).
`stored` is the parsed counter file (`none` when it does not exist), `today`
is `datetime.now().strftime('%Y-%m-%d')`.  Returns the counter file after
the call and whether the call proceeds to the network request; `false` models
the "daily quota exceeded" exception, raised before any network
I/O and before any write (the file is left unchanged). -/
def quota_gate (stored : Option QuotaRecord) (today : String) :
    Option QuotaRecord × Bool :=
  let rd : QuotaRecord := match stored with
    | some r => if r.date ≠ today then ⟨today, 0⟩ else r
    | none => ⟨today, 0⟩
  if rd.count ≥ 25000 then (stored, false)
  else (some ⟨rd.date, rd.count + 1⟩, true)

/-- Classified outcome of one HTTP request inside `search_api`'s retry loop:
HTTP 200 (`ok`), 429 with optional `Retry-After` header, another 4xx
(`clientError`), 5xx (`serverError`), or a `requests.RequestException`
(`netError`). -/
inductive ApiResponse where
  | ok (body : String)
  | rateLimited (retryAfter : Option Nat)
  | clientError (code : Nat)
  | serverError (code : Nat)
  | netError
deriving DecidableEq

/-- Return value of `search_api`: a parsed result, the immediate
`{"items": [], "error": "잘못된 요청"}` on HTTP 400, the
`{"items": [], "error": str(e)}` after the last network error, or the plain
`{"items": []}` once `max_retries` is exhausted. -/
inductive SearchResult where
  | success (body : String)
  | badRequest
  | netFail
  | exhausted
deriving DecidableEq

/-- The retry loop of `search_api` (`naver_api.py:89-165`).  The fuel is
`max_retries - retry_count`; `backoff` is `backoff_time` (a `ℚ`, since the
network-error path multiplies it by 1.5); `resp i` is the outcome of the
`i`-th HTTP request.  Returns the result, the list of delays slept (in
seconds, in order), and the number of HTTP requests issued.  A 429 without
`Retry-After` sleeps `int(backoff_time)` = `⌊backoff⌋` (backoff is always
positive); 429/4xx/5xx double the backoff, a network error multiplies it by
1.5 and, on the last attempt, returns the error result after sleeping. -/
def search_api_run : Nat → ℚ → (Nat → ApiResponse) → Nat →
    SearchResult × List ℚ × Nat
  | 0, _, _, _ => (.exhausted, [], 0)
  | fuel + 1, backoff, resp, idx =>
    match resp idx with
    | .ok body => (.success body, [], 1)
    | .rateLimited ra =>
      let wait : ℚ := match ra with
        | some n => (n : ℚ)
        | none => ((⌊backoff⌋ : Int) : ℚ)
      let r := search_api_run fuel (backoff * 2) resp (idx + 1)
      (r.1, wait :: r.2.1, r.2.2 + 1)
    | .clientError code =>
      if code = 400 then (.badRequest, [], 1)
      else
        let r := search_api_run fuel (backoff * 2) resp (idx + 1)
        (r.1, backoff :: r.2.1, r.2.2 + 1)
    | .serverError _ =>
      let r := search_api_run fuel (backoff * 2) resp (idx + 1)
      (r.1, backoff :: r.2.1, r.2.2 + 1)
    | .netError =>
      if fuel = 0 then (.netFail, [backoff], 1)
      else
        let r := search_api_run fuel (backoff * (3 / 2)) resp (idx + 1)
        (r.1, backoff :: r.2.1, r.2.2 + 1)

/-- Responses whose retry path sleeps the current backoff (or its floor) and
doubles it: a 429 without a server-supplied `Retry-After`, or any 5xx. -/
def isBackoffDoubling : ApiResponse → Bool
  | .rateLimited none => true
  | .serverError _ => true
  | _ => false

/-- A response stream delivering only 429s without `Retry-After`. -/
def allRateLimited : Nat → ApiResponse := fun _ => .rateLimited none

/-- A response stream whose first request gets HTTP 404 and whose second
request succeeds. -/
def resp404 : Nat → ApiResponse := fun i => if i = 0 then .clientError 404 else .ok "r"

/-- A response stream delivering only HTTP 400. -/
def all400 : Nat → ApiResponse := fun _ => .clientError 400

/-- A response stream delivering only HTTP 404. -/
def all404 : Nat → ApiResponse := fun _ => .clientError 404

end MC.NaverApi

namespace MC.Checkpoint

/-- The fields `save_checkpoint` writes (`checkpoint.py:37-45`). -/
structure CheckpointData where
  current_keyword : String
  processed_count : Nat
  total_searches : Nat
  total_found : Nat
  total_saved : Nat
  failed_items : Nat
  timestamp : String
deriving DecidableEq

/-- `load_checkpoint` (`checkpoint.py:52-80`).  `file` is the raw content of
`checkpoint.json` (`none` when the file does not exist); `parse` is
`json.load` together with the `current_keyword`/`timestamp` accesses on the
log line (`none` models any exception there).  `ts` is
`datetime.now().strftime('%Y%m%d%H%M%S')`.  Returns the loaded checkpoint
and, when the file was corrupt, the backup path it was renamed to. -/
def load_checkpoint (parse : String → Option CheckpointData)
    (file : Option String) (ts : String) :
    Option CheckpointData × Option String :=
  match file with
  | none => (none, none)
  | some content =>
    match parse content with
    | some cp => (some cp, none)
    | none => (none, some ("checkpoint.json.backup." ++ ts))

end MC.Checkpoint

namespace Crawler.Fetcher

/-- Outcome of one attempt inside `MedicineFetcher.fetch_medicine_data`
(`crawler/fetcher.py:64-187`), classified exactly as the code classifies it:
`httpError` — status ≠ 200 (lines 96-99, retried); `badRedirect` — redirect
off-site or to a different document (105-138, retried); `offCategory` —
final URL without the `cid=51000`/`categoryId=51000` markers (141-143,
returns `None` immediately); `notMedicinePage` (149-158, retried);
`extractFail` — `_parse_medicine_data` returned a falsy value (166-169,
retried); `timeout`, `connError`, `exn` — the three exception handlers
(171-184, retried); `ok` — extracted record returned (163-165). -/
inductive FetchAttempt where
  | ok (d : MC.FileUtils.MedRecord)
  | httpError (code : Nat)
  | badRedirect
  | offCategory
  | notMedicinePage
  | extractFail
  | timeout
  | connError
  | exn
deriving DecidableEq

/-- Attempts after which the loop retries the same docId (everything except
a success and the off-category hard return). -/
def isRetryable : FetchAttempt → Bool
  | .ok _ => false
  | .offCategory => false
  | _ => true

/-- The retry loop of `fetch_medicine_data`: the fuel is
`max_retries - retry_count`; `att i` is the outcome of the `i`-th attempt.
Returns the extracted record, or `None` on the off-category check or once
`max_retries` is exhausted. -/
def fetch_medicine_data : Nat → (Nat → FetchAttempt) →
    Option MC.FileUtils.MedRecord
  | 0, _ => none
  | fuel + 1, att =>
    match att 0 with
    | .ok d => some d
    | .offCategory => none
    | _ => fetch_medicine_data fuel (fun i => att (i + 1))

/-- `sanitize_filename` of `crawler/utils.py:149-167` (100-char limit). -/
def sanitize_filename100 (s : String) : String :=
  String.mk ((s.data.map (fun c =>
    if c ∈ ['<', '>', ':', '"', '/', '\\', '|', '?', '*'] then '_' else c)).take 100)

/-- `save_medicine_data` of `crawler/utils.py:169-208`: rejects an empty
record or one without an `id`, otherwise writes
`{id}_{sanitized name}.json` and returns the path.  (Name selection
conflates an absent key with an empty value, as everywhere in this model.) -/
def save_medicine_data (d : MC.FileUtils.MedRecord) : Option String :=
  if d = ({} : MC.FileUtils.MedRecord) ∨ d.id = "" then none
  else
    some (d.id ++ "_" ++ sanitize_filename100
      (if d.korean_name ≠ "" then d.korean_name
       else if d.title ≠ "" then d.title else "unknown") ++ ".json")

/-- `save_processed_docid` (`crawler/utils.py:96-112`) strips a leading
`'M'` before appending the docId. -/
def stripLeadingM (s : String) : String :=
  match s.data with
  | 'M' :: rest => String.mk rest
  | _ => s

/-- Durable state of the per-docId loop of `crawler/main.py:160-205`. -/
structure CrawlState where
  invalidMem : List String := []
  invalidFile : List String := []
  processedFile : List String := []
  jsonFiles : List String := []
  successCount : Nat := 0
  invalidCount : Nat := 0
deriving DecidableEq

/-- One iteration of the crawl loop (`crawler/main.py:161-199`) for `docid`,
given the value of `fetcher.fetch_medicine_data(docid)`.  The trailing
`update_missing_docids` call raises `NameError` (no such function is defined
or imported), which the surrounding `except` catches; every write modelled
below has already happened by then, so only the iteration's remainder is
skipped. -/
def main_step (docid : String) (fetchResult : Option MC.FileUtils.MedRecord)
    (st : CrawlState) : CrawlState :=
  if docid ∈ st.invalidMem then st
  else
    match fetchResult with
    | some d =>
      match save_medicine_data d with
      | some path =>
        { st with processedFile := st.processedFile ++ [stripLeadingM docid],
                  jsonFiles := st.jsonFiles ++ [path],
                  successCount := st.successCount + 1 }
      | none => st
    | none =>
      { st with invalidMem := st.invalidMem ++ [docid],
                invalidFile := st.invalidFile ++ [docid],
                invalidCount := st.invalidCount + 1 }

/-- An attempt stream failing every attempt with a timeout. -/
def constTimeout : Nat → FetchAttempt := fun _ => .timeout

/-- An attempt stream whose first attempt gets HTTP 404 and whose second
attempt extracts a record. -/
def att404 : Nat → FetchAttempt :=
  fun i => if i = 0 then .httpError 404 else .ok { id := "M77" }

end Crawler.Fetcher

/-! ### Helper lemmas -/

namespace Crawler.Utils

theorem decVal_decDigitsAux (fuel n : Nat) (h : n ≤ fuel) :
    decVal (decDigitsAux fuel n) = n := by
  induction fuel generalizing n with
  | zero => interval_cases n; simp [decDigitsAux, decVal]
  | succ fuel ih =>
    by_cases hn : n = 0
    · simp [decDigitsAux, hn, decVal]
    · have hdiv : n / 10 ≤ fuel := by
        have := Nat.div_le_self n 10
        have : n / 10 < n := Nat.div_lt_self (Nat.pos_of_ne_zero hn) (by norm_num)
        omega
      simp only [decDigitsAux, hn, if_false, decVal, ih _ hdiv]
      omega

theorem decDigitsAux_lt_ten (fuel n : Nat) :
    ∀ d ∈ decDigitsAux fuel n, d < 10 := by
  induction fuel generalizing n with
  | zero => simp [decDigitsAux]
  | succ fuel ih =>
    by_cases hn : n = 0
    · simp [decDigitsAux, hn]
    · simp only [decDigitsAux, hn, if_false, List.mem_cons]
      rintro d (rfl | hd)
      · exact Nat.mod_lt _ (by norm_num)
      · exact ih _ d hd

theorem charToDigit_digitChar (d : Nat) (h : d < 10) :
    charToDigit (Nat.digitChar d) = d := by
  interval_cases d <;> rfl

theorem digitChar_ne_dash (d : Nat) (h : d < 10) : Nat.digitChar d ≠ '-' := by
  interval_cases d <;> decide

theorem bigEndVal_natDecStr (n : Nat) : bigEndVal (natDecStr n).data = n := by
  by_cases hn : n = 0
  · subst hn; rfl
  · have hmap : (decDigitsAux n n).reverse.map (charToDigit ∘ Nat.digitChar) =
        (decDigitsAux n n).reverse := by
      have hid := List.map_id (decDigitsAux n n).reverse
      refine List.map_congr_left ?_ |>.trans hid
      intro d hd
      exact charToDigit_digitChar d (decDigitsAux_lt_ten n n d (List.mem_reverse.mp hd))
    simp only [natDecStr, hn, if_false, bigEndVal, String.data]
    rw [List.map_map, hmap, List.reverse_reverse]
    exact decVal_decDigitsAux n n le_rfl

theorem natDecStr_head_ne_dash (n : Nat) : (natDecStr n).data.head? ≠ some '-' := by
  by_cases hn : n = 0
  · subst hn; decide
  · simp only [natDecStr, hn, if_false, String.data]
    rcases hrev : (decDigitsAux n n).reverse with _ | ⟨d, rest⟩
    · simp
    · have hd10 : d < 10 := decDigitsAux_lt_ten n n d
        (List.mem_reverse.mp (hrev ▸ List.mem_cons_self d rest))
      simp only [List.map_cons, List.head?_cons, ne_eq, Option.some.injEq]
      exact digitChar_ne_dash d hd10

theorem strToIntDec_intDecStr (i : Int) : strToIntDec (intDecStr i) = i := by
  cases i with
  | ofNat n =>
    simp only [intDecStr, strToIntDec,
      if_neg (natDecStr_head_ne_dash n), bigEndVal_natDecStr n]
    rfl
  | negSucc n =>
    have hdata : ("-" ++ natDecStr (n + 1)).data = '-' :: (natDecStr (n + 1)).data := rfl
    simp only [intDecStr, strToIntDec, hdata, List.head?_cons, List.tail_cons, if_pos rfl,
      bigEndVal_natDecStr (n + 1)]
    simp [Int.negSucc_eq]

theorem intDecStr_injective : Function.Injective intDecStr :=
  Function.LeftInverse.injective strToIntDec_intDecStr

/-- Python's `range(s, e + 1)` as a list of `Int`s, in increasing order. -/

theorem mem_intRange (s e i : Int) : i ∈ intRange s e ↔ s ≤ i ∧ i ≤ e := by
  simp only [intRange, List.mem_map, List.mem_range]
  constructor
  · rintro ⟨k, hk, rfl⟩; omega
  · rintro ⟨h1, h2⟩; exact ⟨(i - s).toNat, by omega, by omega⟩

theorem intRange_nodup (s e : Int) : (intRange s e).Nodup := by
  refine List.Nodup.map ?_ (List.nodup_range _)
  intro a b h
  dsimp only at h
  omega

end Crawler.Utils

namespace MC.NaverApi

/-- Over a run of consecutive 429-without-`Retry-After` / 5xx outcomes, the
slept delays are the backoff sequence `b, 2b, 4b, …` (one delay per attempt,
until the fuel runs out). -/
theorem delays_of_backoff_doubling (fuel : Nat) (b : Nat) (hb : 0 < b)
    (resp : Nat → ApiResponse) (idx : Nat)
    (h : ∀ i, isBackoffDoubling (resp i) = true) :
    (search_api_run fuel ((b : ℚ)) resp idx).2.1 =
      (List.range fuel).map (fun k => ((b * 2 ^ k : Nat) : ℚ)) := by
  induction fuel generalizing idx b with
  | zero => simp [search_api_run]
  | succ fuel ih =>
    have hcast : ((b : ℚ)) * 2 = ((b * 2 : Nat) : ℚ) := by push_cast; ring
    have htail : (search_api_run fuel ((b : ℚ) * 2) resp (idx + 1)).2.1 =
        (List.range fuel).map (fun k => ((b * 2 * 2 ^ k : Nat) : ℚ)) := by
      rw [hcast]; exact ih (b * 2) (by omega) (idx + 1)
    have hrange : (List.range (fuel + 1)).map (fun k => ((b * 2 ^ k : Nat) : ℚ)) =
        ((b : ℚ)) :: (List.range fuel).map (fun k => ((b * 2 * 2 ^ k : Nat) : ℚ)) := by
      rw [List.range_succ_eq_map, List.map_cons, List.map_map]
      congr 1
      · push_cast; ring
      · refine List.map_congr_left ?_
        intro k hk
        simp only [Function.comp_apply]
        push_cast [pow_succ]
        ring
    cases hr : resp idx with
    | ok body => have := h idx; rw [hr] at this; simp [isBackoffDoubling] at this
    | clientError code => have := h idx; rw [hr] at this; simp [isBackoffDoubling] at this
    | netError => have := h idx; rw [hr] at this; simp [isBackoffDoubling] at this
    | serverError code =>
      simp only [search_api_run, hr, htail, hrange]
    | rateLimited ra =>
      cases ra with
      | some n => have := h idx; rw [hr] at this; simp [isBackoffDoubling] at this
      | none =>
        simp only [search_api_run, hr, htail, hrange]
        rw [Int.floor_natCast]
        norm_cast

end MC.NaverApi

namespace MC.FileUtils

theorem digitChar_isDigit (d : Nat) (h : d < 10) : (Nat.digitChar d).isDigit := by
  interval_cases d <;> decide

theorem format07d_length (m : Nat) : (format07d m).length = 7 := by
  simp [format07d, String.length]

theorem format07d_digits (m : Nat) : ∀ c ∈ (format07d m).data, c.isDigit := by
  intro c hc
  simp only [format07d] at hc
  obtain ⟨k, _, rfl⟩ := List.mem_map.mp hc
  exact digitChar_isDigit _ (Nat.mod_lt _ (by norm_num))

end MC.FileUtils

namespace Claims

open Crawler.Utils

/-- **C1.** For all integers `start ≤ end` and every set `processed` of
decimal-string IDs, `calculate_missing_docids start end processed` is a
duplicate-free list whose element set is exactly
`{str i | start ≤ i ≤ end} \ processed`. -/
theorem c1_missing_docids (s e : Int) (processed : List String) (h : s ≤ e) :
    (∀ x, x ∈ calculate_missing_docids s e processed ↔
      ((∃ i : Int, s ≤ i ∧ i ≤ e ∧ x = intDecStr i) ∧ x ∉ processed)) ∧
    (calculate_missing_docids s e processed).Nodup := by
  constructor
  · intro x
    simp only [calculate_missing_docids, List.mem_map, List.mem_filter,
      mem_intRange, decide_eq_true_eq]
    constructor
    · rintro ⟨i, ⟨⟨h1, h2⟩, hp⟩, rfl⟩
      exact ⟨⟨i, h1, h2, rfl⟩, hp⟩
    · rintro ⟨⟨i, h1, h2, rfl⟩, hp⟩
      exact ⟨i, ⟨⟨h1, h2⟩, hp⟩, rfl⟩
  · exact ((intRange_nodup s e).filter _).map intDecStr_injective

/-- Witness for C1 at the spec's concrete scenario: range 100–105 with
`processed = {"101", "104"}` yields exactly `{"100", "102", "103", "105"}`. -/
theorem c1_missing_docids_witness :
    ((100 : Int) ≤ 105 ∧
      ((∀ x, x ∈ calculate_missing_docids 100 105 ["101", "104"] ↔
        ((∃ i : Int, 100 ≤ i ∧ i ≤ 105 ∧ x = intDecStr i) ∧ x ∉ ["101", "104"])) ∧
      (calculate_missing_docids 100 105 ["101", "104"]).Nodup)) ∧
    calculate_missing_docids 100 105 ["101", "104"] = ["100", "102", "103", "105"] :=
  ⟨⟨by decide, c1_missing_docids 100 105 ["101", "104"] (by decide)⟩, by decide⟩

open MC.FileUtils

/-- **C2 (code-bug evaluation).** After `is_duplicate_medicine` has returned
`False` for `noIdRecord` — thereby marking its derived ID `"MC1234567"` as
seen — `save_medicine_data` on that very record stores it anyway and returns
`(True, path)`: `standardize_medicine_data`'s missing-field loop
(`file_utils.py:141-145`) overwrites the empty `id` with the placeholder
`"정보 없음"` before the generate-fallback check at line 148, so the duplicate
check compares the placeholder, not the derived ID, against the seen set. -/
theorem c2_at_most_once_storage_bug :
    derive_medicine_id constEnv noIdRecord = "MC1234567" ∧
    is_duplicate_medicine constEnv noIdRecord [] = (false, ["MC1234567"]) ∧
    (standardize_medicine_data constEnv noIdRecord).id = "정보 없음" ∧
    save_medicine_data constEnv noIdRecord
        { processedIds := ["MC1234567"], jsonFiles := [] } =
      ((true, some "정보 없음_타이레놀.json"),
        { processedIds := ["MC1234567", "정보 없음"],
          jsonFiles := ["정보 없음_타이레놀.json"] }) := by
  decide

/-- **C10 (amended).** `generate_medicine_id` is total: for every record it
returns a non-empty string, either `'M'` followed by the `docId=` value
captured from the first non-empty of (`url`, `link`) — only that one string
is examined — or `'MC'` followed by exactly seven decimal digits of the
hashed name/company fallback. -/
theorem c10_generate_id_total (env : Env) (d : MedRecord) :
    generate_medicine_id env d ≠ "" ∧
    ((∃ cap, docidCapture (if d.url ≠ "" then d.url else d.link).data = some cap ∧
        generate_medicine_id env d = "M" ++ cap) ∨
      (∃ m : Nat, m < 10000000 ∧
        generate_medicine_id env d = "MC" ++ format07d m ∧
        (format07d m).length = 7 ∧ ∀ c ∈ (format07d m).data, c.isDigit)) := by
  cases hcap : docidCapture (if d.url ≠ "" then d.url else d.link).data with
  | some cap =>
    have hgen : generate_medicine_id env d = "M" ++ cap := by
      unfold generate_medicine_id
      rw [hcap]
    refine ⟨?_, Or.inl ⟨cap, rfl, hgen⟩⟩
    rw [hgen]
    intro h
    have hdata := congrArg String.data h
    rw [show ("M" ++ cap).data = 'M' :: cap.data from rfl] at hdata
    exact absurd hdata (List.cons_ne_nil _ _)
  | none =>
    have hgen : generate_medicine_id env d = "MC" ++ format07d ((env.hashOf
        ((if d.korean_name ≠ "" then d.korean_name else d.title) ++ "_" ++
          d.company ++ "_" ++ env.today8)).natAbs % 10000000) := by
      unfold generate_medicine_id
      rw [hcap]
    refine ⟨?_, Or.inr ⟨_, Nat.mod_lt _ (by norm_num), hgen,
      format07d_length _, format07d_digits _⟩⟩
    rw [hgen]
    intro h
    have hdata := congrArg String.data h
    rw [show ("MC" ++ format07d _).data = 'M' :: 'C' ::
      (format07d _).data from rfl] at hdata
    exact absurd hdata (List.cons_ne_nil _ _)

/-- **C10 counterexample.** With a non-empty `url` lacking `docId=` and a
`link` carrying `docId=123`, the claim's reading gives `"M123"`, but the code
only searches the `url` and falls back to the hash-based `"MC…"` ID. -/
theorem c10_counterexample :
    generate_medicine_id constEnv linkOnlyRecord ≠ "M123" ∧
    generate_medicine_id constEnv linkOnlyRecord = "MC1234567" := by
  decide

open MC.KeywordManager MC.NaverApi MC.Checkpoint

/-- **C3 (amended).** For every non-empty keyword occurring at most once in
Todo, a completed `update_keyword_progress` call succeeds and leaves the
keyword in Done and absent from Todo (exactly one ledger); if Todo and Done
were disjoint beforehand they remain disjoint. -/
theorem c3_ledger_partition (kw : String) (todo done : List String)
    (hkw : kw ≠ "") (hcount : todo.count kw ≤ 1) :
    (update_keyword_progress kw todo done).1 = true ∧
    kw ∈ (update_keyword_progress kw todo done).2.2 ∧
    kw ∉ (update_keyword_progress kw todo done).2.1 ∧
    (todo.Disjoint done →
      (update_keyword_progress kw todo done).2.1.Disjoint
        (update_keyword_progress kw todo done).2.2) := by
  have htodo : kw ∉ (if kw ∈ todo then todo.erase kw else todo) := by
    by_cases hmem : kw ∈ todo
    · rw [if_pos hmem]
      have hone : todo.count kw ≠ 0 := fun h0 => (List.count_eq_zero.mp h0) hmem
      have hz : (todo.erase kw).count kw = 0 := by
        rw [List.count_erase_self]; omega
      exact List.count_eq_zero.mp hz
    · rw [if_neg hmem]; exact hmem
  have hsub : (if kw ∈ todo then todo.erase kw else todo) ⊆ todo := by
    by_cases hmem : kw ∈ todo
    · rw [if_pos hmem]; exact List.erase_subset _ _
    · rw [if_neg hmem]; exact fun x hx => hx
  by_cases hdone : kw ∈ done
  · have hupd : update_keyword_progress kw todo done =
        (true, if kw ∈ todo then todo.erase kw else todo, done) := by
      simp [update_keyword_progress, hkw, hdone]
    rw [hupd]
    exact ⟨rfl, hdone, htodo, fun hdisj x hx hxd => hdisj (hsub hx) hxd⟩
  · have hupd : update_keyword_progress kw todo done =
        (true, if kw ∈ todo then todo.erase kw else todo, done ++ [kw]) := by
      simp [update_keyword_progress, hkw, hdone]
    rw [hupd]
    refine ⟨rfl, List.mem_append.mpr (Or.inr (by simp)), htodo, ?_⟩
    intro hdisj x hx hxd
    rcases List.mem_append.mp hxd with hxdone | hxkw
    · exact hdisj (hsub hx) hxdone
    · rw [List.mem_singleton.mp hxkw] at hx
      exact htodo hx

/-- Witness for C3 at a concrete ledger state. -/
theorem c3_ledger_partition_witness :
    (("게보린" : String) ≠ "" ∧
      (["타이레놀", "게보린"] : List String).count "게보린" ≤ 1) ∧
    ((update_keyword_progress "게보린" ["타이레놀", "게보린"] ["박카스"]).1 = true ∧
      "게보린" ∈ (update_keyword_progress "게보린" ["타이레놀", "게보린"] ["박카스"]).2.2 ∧
      "게보린" ∉ (update_keyword_progress "게보린" ["타이레놀", "게보린"] ["박카스"]).2.1 ∧
      ((["타이레놀", "게보린"] : List String).Disjoint ["박카스"] →
        (update_keyword_progress "게보린" ["타이레놀", "게보린"] ["박카스"]).2.1.Disjoint
          (update_keyword_progress "게보린" ["타이레놀", "게보린"] ["박카스"]).2.2)) :=
  ⟨⟨by decide, by decide⟩,
    c3_ledger_partition "게보린" ["타이레놀", "게보린"] ["박카스"] (by decide) (by decide)⟩

/-- **C3 counterexample.** When the keyword occurs twice in Todo,
`list.remove` deletes only the first occurrence, so after the call the
keyword is in Todo *and* in Done — refuting the unconditional claim. -/
theorem c3_counterexample :
    "X" ∈ (update_keyword_progress "X" ["X", "X"] []).2.1 ∧
    "X" ∈ (update_keyword_progress "X" ["X", "X"] []).2.2 := by
  decide

/-- **C4 (amended).** For a keyword in Todo and not yet in Done,
`update_keyword_progress` performs exactly two durable writes, in this
order: first the Todo rewrite without the keyword, then the Done append —
the reverse of the claimed order — and the final state has the keyword only
in Done. -/
theorem c4_write_order (kw : String) (todo done : List String)
    (hkw : kw ≠ "") (htodo : kw ∈ todo) (hdone : kw ∉ done) :
    update_keyword_writes kw todo done =
      [.writeTodo (todo.erase kw), .appendDone kw] ∧
    applyWrites (todo, done) (update_keyword_writes kw todo done) =
      (todo.erase kw, done ++ [kw]) := by
  have hw : update_keyword_writes kw todo done =
      [.writeTodo (todo.erase kw), .appendDone kw] := by
    simp [update_keyword_writes, hkw, htodo, hdone]
  exact ⟨hw, by rw [hw]; rfl⟩

/-- Witness for C4 at a concrete ledger state. -/
theorem c4_write_order_witness :
    (("판피린" : String) ≠ "" ∧ "판피린" ∈ (["판피린"] : List String) ∧
      "판피린" ∉ ([] : List String)) ∧
    (update_keyword_writes "판피린" ["판피린"] [] =
      [.writeTodo ((["판피린"] : List String).erase "판피린"), .appendDone "판피린"] ∧
    applyWrites (["판피린"], []) (update_keyword_writes "판피린" ["판피린"] []) =
      ((["판피린"] : List String).erase "판피린", [] ++ ["판피린"])) :=
  ⟨⟨by decide, by decide, by decide⟩,
    c4_write_order "판피린" ["판피린"] [] (by decide) (by decide) (by decide)⟩

/-- **C4 counterexample.** The claim says the Done append comes first, so at
no intermediate point is the keyword absent from both ledgers.  In fact the
first write is the Todo rewrite, and after it the keyword is in neither
ledger. -/
theorem c4_counterexample :
    update_keyword_writes "X" ["X"] [] = [.writeTodo [], .appendDone "X"] ∧
    "X" ∉ (applyWrites (["X"], []) ((update_keyword_writes "X" ["X"] []).take 1)).1 ∧
    "X" ∉ (applyWrites (["X"], []) ((update_keyword_writes "X" ["X"] []).take 1)).2 := by
  decide

/-- **C5.** The daily-quota gate of `search_api`: at a persisted count of
24999 for today the call increments the counter to 25000 and proceeds to the
network request; at a count ≥ 25000 it refuses (raises) before any network
request, leaving the counter file unchanged; on a stored date different from
today the counter is reset to 0 before the check, so the call proceeds and
writes count 1. -/
theorem c5_quota_gate (today d : String) (c : Nat)
    (hc : 25000 ≤ c) (hd : d ≠ today) :
    quota_gate (some ⟨today, 24999⟩) today = (some ⟨today, 25000⟩, true) ∧
    quota_gate (some ⟨today, c⟩) today = (some ⟨today, c⟩, false) ∧
    quota_gate (some ⟨d, c⟩) today = (some ⟨today, 1⟩, true) := by
  refine ⟨?_, ?_, ?_⟩
  · simp [quota_gate]
  · simp [quota_gate, hc]
  · simp [quota_gate, hd]

/-- Witness for C5 at concrete dates and the boundary count. -/
theorem c5_quota_gate_witness :
    (25000 ≤ 25000 ∧ ("2024-12-31" : String) ≠ "2025-01-01") ∧
    (quota_gate (some ⟨"2025-01-01", 24999⟩) "2025-01-01" =
        (some ⟨"2025-01-01", 25000⟩, true) ∧
      quota_gate (some ⟨"2025-01-01", 25000⟩) "2025-01-01" =
        (some ⟨"2025-01-01", 25000⟩, false) ∧
      quota_gate (some ⟨"2024-12-31", 25000⟩) "2025-01-01" =
        (some ⟨"2025-01-01", 1⟩, true)) :=
  ⟨⟨by decide, by decide⟩,
    c5_quota_gate "2025-01-01" "2024-12-31" 25000 (by decide) (by decide)⟩

/-- **C6.** `load_checkpoint`: when `checkpoint.json` exists but cannot be
parsed as a valid checkpoint, it returns `None` without raising and the file
is renamed aside to `checkpoint.json.backup.<timestamp>`; when no checkpoint
file exists it also returns `None` (and nothing is renamed). -/
theorem c6_corrupt_checkpoint (parse : String → Option CheckpointData)
    (content ts : String) (hbad : parse content = none) :
    load_checkpoint parse (some content) ts =
      (none, some ("checkpoint.json.backup." ++ ts)) ∧
    load_checkpoint parse none ts = (none, none) := by
  constructor
  · simp [load_checkpoint, hbad]
  · rfl

/-- Witness for C6 with a parser that rejects the content. -/
theorem c6_corrupt_checkpoint_witness :
    ((fun (_ : String) => (none : Option CheckpointData)) "garbage" = none) ∧
    (load_checkpoint (fun _ => none) (some "garbage") "20250101120000" =
        (none, some ("checkpoint.json.backup." ++ "20250101120000")) ∧
      load_checkpoint (fun (_ : String) => (none : Option CheckpointData))
        none "20250101120000" = (none, none)) :=
  ⟨rfl, c6_corrupt_checkpoint (fun _ => none) "garbage" "20250101120000" rfl⟩

/-- **C7 (amended).** In the ID-range crawler, when every attempt for a
docId fails with a retryable outcome (timeout, non-200 status, extraction
failure, …), `fetch_medicine_data` returns `None` after `max_retries`
attempts, and the main loop then *does* append the docId to
`invalid_docids.txt` (and to the in-memory invalid set) and increments the
invalid counter — soft failures are not distinguished from hard
invalidity. -/
theorem c7_soft_failure_marked_invalid (m : Nat)
    (att : Nat → Crawler.Fetcher.FetchAttempt)
    (docid : String) (st : Crawler.Fetcher.CrawlState)
    (hret : ∀ i, Crawler.Fetcher.isRetryable (att i) = true)
    (hfresh : docid ∉ st.invalidMem) :
    Crawler.Fetcher.fetch_medicine_data m att = none ∧
    Crawler.Fetcher.main_step docid (Crawler.Fetcher.fetch_medicine_data m att) st =
      { st with invalidMem := st.invalidMem ++ [docid],
                invalidFile := st.invalidFile ++ [docid],
                invalidCount := st.invalidCount + 1 } := by
  have hnone : Crawler.Fetcher.fetch_medicine_data m att = none := by
    induction m generalizing att with
    | zero => rfl
    | succ fuel ih =>
      cases hatt : att 0 with
      | ok d =>
        exact absurd (hret 0)
          (by rw [hatt]; simp [Crawler.Fetcher.isRetryable])
      | offCategory =>
        exact absurd (hret 0)
          (by rw [hatt]; simp [Crawler.Fetcher.isRetryable])
      | httpError code =>
        rw [show Crawler.Fetcher.fetch_medicine_data (fuel + 1) att =
          Crawler.Fetcher.fetch_medicine_data fuel (fun i => att (i + 1)) from by
            simp [Crawler.Fetcher.fetch_medicine_data, hatt]]
        exact ih _ (fun i => hret (i + 1))
      | badRedirect =>
        rw [show Crawler.Fetcher.fetch_medicine_data (fuel + 1) att =
          Crawler.Fetcher.fetch_medicine_data fuel (fun i => att (i + 1)) from by
            simp [Crawler.Fetcher.fetch_medicine_data, hatt]]
        exact ih _ (fun i => hret (i + 1))
      | notMedicinePage =>
        rw [show Crawler.Fetcher.fetch_medicine_data (fuel + 1) att =
          Crawler.Fetcher.fetch_medicine_data fuel (fun i => att (i + 1)) from by
            simp [Crawler.Fetcher.fetch_medicine_data, hatt]]
        exact ih _ (fun i => hret (i + 1))
      | extractFail =>
        rw [show Crawler.Fetcher.fetch_medicine_data (fuel + 1) att =
          Crawler.Fetcher.fetch_medicine_data fuel (fun i => att (i + 1)) from by
            simp [Crawler.Fetcher.fetch_medicine_data, hatt]]
        exact ih _ (fun i => hret (i + 1))
      | timeout =>
        rw [show Crawler.Fetcher.fetch_medicine_data (fuel + 1) att =
          Crawler.Fetcher.fetch_medicine_data fuel (fun i => att (i + 1)) from by
            simp [Crawler.Fetcher.fetch_medicine_data, hatt]]
        exact ih _ (fun i => hret (i + 1))
      | connError =>
        rw [show Crawler.Fetcher.fetch_medicine_data (fuel + 1) att =
          Crawler.Fetcher.fetch_medicine_data fuel (fun i => att (i + 1)) from by
            simp [Crawler.Fetcher.fetch_medicine_data, hatt]]
        exact ih _ (fun i => hret (i + 1))
      | exn =>
        rw [show Crawler.Fetcher.fetch_medicine_data (fuel + 1) att =
          Crawler.Fetcher.fetch_medicine_data fuel (fun i => att (i + 1)) from by
            simp [Crawler.Fetcher.fetch_medicine_data, hatt]]
        exact ih _ (fun i => hret (i + 1))
  refine ⟨hnone, ?_⟩
  rw [hnone]
  simp [Crawler.Fetcher.main_step, hfresh]

/-- Witness for C7: three timeouts in a row on a fresh docId. -/
theorem c7_soft_failure_witness :
    ((∀ i, Crawler.Fetcher.isRetryable (Crawler.Fetcher.constTimeout i) = true) ∧
      "9" ∉ ({} : Crawler.Fetcher.CrawlState).invalidMem) ∧
    (Crawler.Fetcher.fetch_medicine_data 3 Crawler.Fetcher.constTimeout = none ∧
      Crawler.Fetcher.main_step "9"
          (Crawler.Fetcher.fetch_medicine_data 3 Crawler.Fetcher.constTimeout)
          ({} : Crawler.Fetcher.CrawlState) =
        { ({} : Crawler.Fetcher.CrawlState) with
            invalidMem := ({} : Crawler.Fetcher.CrawlState).invalidMem ++ ["9"],
            invalidFile := ({} : Crawler.Fetcher.CrawlState).invalidFile ++ ["9"],
            invalidCount := ({} : Crawler.Fetcher.CrawlState).invalidCount + 1 }) :=
  ⟨⟨fun _ => rfl, by decide⟩,
    c7_soft_failure_marked_invalid 3 Crawler.Fetcher.constTimeout "9" {}
      (fun _ => rfl) (by decide)⟩

/-- **C7 counterexample.** A docId whose every attempt times out (so
`fetch_medicine_data` returns `None` only because `max_retries` was
exceeded) *is* appended to `invalid_docids.txt`, refuting the claim that it
is not. -/
theorem c7_counterexample :
    Crawler.Fetcher.fetch_medicine_data 3 Crawler.Fetcher.constTimeout = none ∧
    (Crawler.Fetcher.main_step "123"
      (Crawler.Fetcher.fetch_medicine_data 3 Crawler.Fetcher.constTimeout)
      ({} : Crawler.Fetcher.CrawlState)).invalidFile = ["123"] := by
  decide

/-- **C8 (amended).** Only HTTP 400 short-circuits: `search_api` returns the
`{"items": [], "error": …}` result immediately after a single request on
status 400; every other 4xx (including 404) is retried with backoff exactly
like a server error; and the page fetcher re-requests the same identifier
after any non-200 status. -/
theorem c8_client_error_handling (fuel idx : Nat) (backoff : ℚ)
    (resp respB : Nat → ApiResponse) (code : Nat)
    (h1 : resp idx = .clientError 400)
    (h2 : respB idx = .clientError code) (hcode : code ≠ 400) :
    search_api_run (fuel + 1) backoff resp idx = (.badRequest, [], 1) ∧
    search_api_run (fuel + 1) backoff respB idx =
      ((search_api_run fuel (backoff * 2) respB (idx + 1)).1,
        backoff :: (search_api_run fuel (backoff * 2) respB (idx + 1)).2.1,
        (search_api_run fuel (backoff * 2) respB (idx + 1)).2.2 + 1) ∧
    (∀ (n : Nat) (att : Nat → Crawler.Fetcher.FetchAttempt) (c : Nat),
      att 0 = .httpError c →
      Crawler.Fetcher.fetch_medicine_data (n + 1) att =
        Crawler.Fetcher.fetch_medicine_data n (fun i => att (i + 1))) := by
  refine ⟨?_, ?_, ?_⟩
  · simp [search_api_run, h1]
  · simp [search_api_run, h2, hcode]
  · intro n att c hatt
    simp [Crawler.Fetcher.fetch_medicine_data, hatt]

/-- Witness for C8: a stream of 400s and a stream of 404s. -/
theorem c8_client_error_witness :
    (all400 0 = ApiResponse.clientError 400 ∧
      all404 0 = ApiResponse.clientError 404 ∧ (404 : Nat) ≠ 400) ∧
    (search_api_run (2 + 1) 1 all400 0 = (.badRequest, [], 1) ∧
      search_api_run (2 + 1) 1 all404 0 =
        ((search_api_run 2 (1 * 2) all404 (0 + 1)).1,
          1 :: (search_api_run 2 (1 * 2) all404 (0 + 1)).2.1,
          (search_api_run 2 (1 * 2) all404 (0 + 1)).2.2 + 1) ∧
      (∀ (n : Nat) (att : Nat → Crawler.Fetcher.FetchAttempt) (c : Nat),
        att 0 = .httpError c →
        Crawler.Fetcher.fetch_medicine_data (n + 1) att =
          Crawler.Fetcher.fetch_medicine_data n (fun i => att (i + 1)))) :=
  ⟨⟨rfl, rfl, by decide⟩,
    c8_client_error_handling 2 0 1 all400 all404 404 rfl rfl (by decide)⟩

/-- **C8 counterexample.** On a 404 first response `search_api` does *not*
return a client error after one request: it retries and succeeds on the
second request (two requests issued).  Likewise the page fetcher retries the
same identifier after a 404 and succeeds on its second attempt. -/
theorem c8_counterexample :
    (search_api_run 3 1 resp404 0).1 = .success "r" ∧
    (search_api_run 3 1 resp404 0).2.2 = 2 ∧
    Crawler.Fetcher.fetch_medicine_data 3 Crawler.Fetcher.att404 =
      some { id := "M77" } := by
  decide

/-- **C9 (amended).** Over a run of consecutive `RateLimited` (429 without
`Retry-After`) / `ServerError` outcomes, the delays slept before successive
retries are exactly `1, 2, 4, …` seconds — strictly increasing, doubling
from 1 — and, the number of retries being bounded by `max_retries`, none
exceeds `2 ^ (max_retries − 1)`; no explicit cap is applied. -/
theorem c9_backoff_doubling (m : Nat) (resp : Nat → ApiResponse)
    (h : ∀ i, isBackoffDoubling (resp i) = true) :
    (search_api_run m 1 resp 0).2.1 =
      (List.range m).map (fun k => ((2 ^ k : Nat) : ℚ)) ∧
    (search_api_run m 1 resp 0).2.1.Pairwise (· < ·) ∧
    ∀ d ∈ (search_api_run m 1 resp 0).2.1, d ≤ ((2 ^ (m - 1) : Nat) : ℚ) := by
  have hdel : (search_api_run m 1 resp 0).2.1 =
      (List.range m).map (fun k => ((2 ^ k : Nat) : ℚ)) := by
    rw [show (1 : ℚ) = ((1 : Nat) : ℚ) by norm_num,
      delays_of_backoff_doubling m 1 (by norm_num) resp 0 h]
    simp
  refine ⟨hdel, ?_, ?_⟩
  · rw [hdel]
    refine List.pairwise_map.mpr ((List.pairwise_lt_range m).imp ?_)
    intro a b hab
    exact_mod_cast Nat.pow_lt_pow_right Nat.one_lt_two hab
  · intro d hd
    rw [hdel] at hd
    obtain ⟨k, hk, rfl⟩ := List.mem_map.mp hd
    have hk' : k ≤ m - 1 := by have := List.mem_range.mp hk; omega
    exact_mod_cast Nat.pow_le_pow_right (by norm_num) hk'

/-- Witness for C9: three consecutive 429s without `Retry-After`. -/
theorem c9_backoff_doubling_witness :
    (∀ i, isBackoffDoubling (allRateLimited i) = true) ∧
    ((search_api_run 3 1 allRateLimited 0).2.1 =
      (List.range 3).map (fun k => ((2 ^ k : Nat) : ℚ)) ∧
    (search_api_run 3 1 allRateLimited 0).2.1.Pairwise (· < ·) ∧
    ∀ d ∈ (search_api_run 3 1 allRateLimited 0).2.1,
      d ≤ ((2 ^ (3 - 1) : Nat) : ℚ)) :=
  ⟨fun _ => rfl, c9_backoff_doubling 3 allRateLimited (fun _ => rfl)⟩

/-- **C9 counterexample.** There is no fixed cap the slept delays never
exceed: for every candidate cap `C` a long enough run of 429s sleeps a delay
above `C` (the code doubles the backoff without ever capping it). -/
theorem c9_counterexample :
    ¬ ∃ C : ℚ, ∀ m : Nat,
      ∀ d ∈ (search_api_run m 1 allRateLimited 0).2.1, d ≤ C := by
  rintro ⟨C, hC⟩
  obtain ⟨n, hn⟩ := exists_nat_gt C
  have hmem : ((1 * 2 ^ n : Nat) : ℚ) ∈
      (search_api_run (n + 1) 1 allRateLimited 0).2.1 := by
    rw [show (1 : ℚ) = ((1 : Nat) : ℚ) by norm_num,
      delays_of_backoff_doubling (n + 1) 1 (by norm_num) allRateLimited 0
        (fun _ => rfl)]
    exact List.mem_map.mpr ⟨n, List.mem_range.mpr (by omega), rfl⟩
  have hle := hC (n + 1) _ hmem
  have h2 : (n : ℚ) < ((1 * 2 ^ n : Nat) : ℚ) := by
    have hnat : n < 1 * 2 ^ n := by simpa using Nat.lt_two_pow n
    exact_mod_cast hnat
  linarith

end Claims
